import Mathlib

/-!
Verification of the ml_zoo gateway backend (`src/backend`) against its
natural-language specification.  The Python sources are shallowly embedded:
strings are handled as `List Char`, JSON values as an inductive `JValue`,
the external serving backend and the JSON parser as explicit oracles, and
fallible code as `Except String`.
-/

/-! ## Python string primitives used by the sources -/

/-- The ASCII whitespace characters recognised by Python's `str.strip()`. -/
def pyIsSpace (c : Char) : Bool :=
  c = ' ' || c = '\t' || c = '\n' || c = '\r' || c.toNat = 11 || c.toNat = 12

/-- `s.strip()`: drop whitespace from both ends. -/
def pyStrip (cs : List Char) : List Char :=
  ((cs.dropWhile pyIsSpace).reverse.dropWhile pyIsSpace).reverse

/-- `s.startswith(pre)`. -/
def pyStartsWith (cs pre : List Char) : Bool :=
  decide (cs.take pre.length = pre)

/-- `s.split(',', 1)[1]`: everything after the first comma (callers must
ensure a comma is present, as Python would raise `IndexError` otherwise). -/
def afterFirstComma (cs : List Char) : List Char :=
  (cs.dropWhile (fun c => c ≠ ',')).tail

/-- `needle in hay` for Python strings: contiguous-substring test. -/
def pyHasSub (needle : List Char) : List Char → Bool
  | [] => pyStartsWith [] needle
  | c :: t => pyStartsWith (c :: t) needle || pyHasSub needle t

/-! ## `base64.b64decode` (CPython `binascii.a2b_base64`, non-strict mode) -/

/-- Value of a base64 alphabet character (`table_a2b_base64`); `none` for
characters outside the 64-character alphabet. -/
def b64CharVal (c : Char) : Option Nat :=
  let n := c.toNat
  if 65 ≤ n ∧ n ≤ 90 then some (n - 65)
  else if 97 ≤ n ∧ n ≤ 122 then some (n - 97 + 26)
  else if 48 ≤ n ∧ n ≤ 57 then some (n - 48 + 52)
  else if n = 43 then some 62
  else if n = 47 then some 63
  else none

/-- The quad-position state machine of CPython's `a2b_base64` with
`strict_mode=False`: invalid characters are skipped, `=` ends the input once
enough padding has accumulated, and a dangling quad position is an error. -/
def a2bBase64 : List Char → Nat → Nat → Nat → List Nat → Option (List Nat)
  | [], quadPos, _, _, acc =>
      if quadPos = 0 then some acc.reverse else none
  | c :: rest, quadPos, leftchar, pads, acc =>
      if c = '=' then
        if 2 ≤ quadPos then
          if 4 ≤ quadPos + (pads + 1) then some acc.reverse
          else a2bBase64 rest quadPos leftchar (pads + 1) acc
        else a2bBase64 rest quadPos leftchar pads acc
      else
        match b64CharVal c with
        | none => a2bBase64 rest quadPos leftchar pads acc
        | some v =>
          match quadPos with
          | 0 => a2bBase64 rest 1 v 0 acc
          | 1 => a2bBase64 rest 2 (v % 16) 0 ((leftchar * 4 + v / 16) :: acc)
          | 2 => a2bBase64 rest 3 (v % 4) 0 ((leftchar * 16 + v / 4) :: acc)
          | _ => a2bBase64 rest 0 0 0 ((leftchar * 64 + v) :: acc)

/-- `base64.b64decode(s)` on a Python `str` with `validate=False`:
the string must be ASCII, then the non-strict state machine runs.
`none` models a raised exception. -/
def pyB64Decode (cs : List Char) : Option (List Nat) :=
  if cs.any (fun c => 128 ≤ c.toNat) then none
  else a2bBase64 cs 0 0 0 []

/-! ## Digit adapter: `ModelHandNumbers.validate_request`
(`src/backend/api/handnumbers.py`, lines 37-67) -/

/-- `string.ascii_letters + string.digits + '+/='`: the character class the
raw-base64 branch checks. -/
def isB64ValidChar (c : Char) : Bool :=
  let n := c.toNat
  (65 ≤ n ∧ n ≤ 90) || (97 ≤ n ∧ n ≤ 122) || (48 ≤ n ∧ n ≤ 57) ||
    n = 43 || n = 47 || n = 61

/-- `data.replace('\n', '').replace('\r', '')`. -/
def stripNewlines (cs : List Char) : List Char :=
  cs.filter (fun c => c ≠ '\n' ∧ c ≠ '\r')

/-- The characters of `'data:image/'`. -/
def dataImageHead : List Char := "data:image/".toList

/-- The characters of `'data:'`. -/
def dataHead : List Char := "data:".toList

/-- The final `try: base64.b64decode(test_data)` block of `validate_request`:
`test_data = data.split(',', 1)[1] if data.startswith('data:') else data`;
any exception (including the `IndexError` of a comma-less split) becomes a
`ValueError`, i.e. an error result here. -/
def decodeStep (cs : List Char) : Except String Unit :=
  if pyStartsWith cs dataHead then
    if (',') ∈ cs then
      match pyB64Decode (afterFirstComma cs) with
      | some _ => .ok ()
      | none => .error "Invalid base64 data"
    else .error "Invalid base64 data: list index out of range"
  else
    match pyB64Decode cs with
    | some _ => .ok ()
    | none => .error "Invalid base64 data"

/-- `ModelHandNumbers.validate_request(data)` on the character list: empty
check, then either the data-URL branch (comma and non-empty segment after
it) or the raw-base64 branch (alphabet check ignoring newlines), then the
decode check. -/
def handnumbersValidateChars (cs : List Char) : Except String Unit :=
  if cs = [] ∨ pyStrip cs = [] then .error "Empty image data provided"
  else if pyStartsWith cs dataImageHead then
    if ¬ ((',') ∈ cs) ∨ pyStrip (afterFirstComma cs) = [] then
      .error "Invalid data URL format: no base64 data after comma"
    else decodeStep cs
  else if 0 < cs.length then
    if ¬ (stripNewlines cs).all isB64ValidChar then
      .error "Invalid base64 format: contains invalid characters"
    else decodeStep cs
  else decodeStep cs

/-- `ModelHandNumbers.validate_request(data)`. -/
def handnumbersValidate (data : String) : Except String Unit :=
  handnumbersValidateChars data.toList

/-- The acceptance rule the spec states for raw base64 payloads, written
from the spec's words: every character other than newline and carriage
return is in the base64 alphabet (letters, digits, `+`, `/`, `=`) and the
string base64-decodes successfully. -/
def specB64Accept (cs : List Char) : Bool :=
  cs.all (fun c => c = '\n' || c = '\r' || isB64ValidChar c) &&
    (pyB64Decode cs).isSome

/-! ## Helper lemmas -/

theorem all_space_of_pyStrip_eq_nil {cs : List Char} (h : pyStrip cs = []) :
    ∀ c ∈ cs, pyIsSpace c = true := by
  have h1 : (cs.dropWhile pyIsSpace).reverse.dropWhile pyIsSpace = [] := by
    simpa [pyStrip, List.reverse_eq_nil_iff] using h
  have h2 := List.dropWhile_eq_nil_iff.mp h1
  intro c hc
  rw [← List.takeWhile_append_dropWhile (p := pyIsSpace) (l := cs)] at hc
  rcases List.mem_append.mp hc with h3 | h3
  · exact List.mem_takeWhile_imp h3
  · exact h2 c (List.mem_reverse.mpr h3)

theorem take_eq_of_pyStartsWith {cs pre : List Char} (h : pyStartsWith cs pre = true) :
    cs.take pre.length = pre :=
  of_decide_eq_true h

theorem pyStartsWith_dataHead_of_dataImage {cs : List Char}
    (h : pyStartsWith cs dataImageHead = true) : pyStartsWith cs dataHead = true := by
  have h1 := take_eq_of_pyStartsWith h
  have h3 : (cs.take dataImageHead.length).take dataHead.length = dataHead := by
    rw [h1]; decide
  rw [List.take_take] at h3
  have h4 : dataHead.length ⊓ dataImageHead.length = dataHead.length := by decide
  rw [h4] at h3
  exact decide_eq_true h3

theorem mem_of_pyStartsWith {cs pre : List Char} {c : Char}
    (h : pyStartsWith cs pre = true) (hc : c ∈ pre) : c ∈ cs := by
  have h1 := take_eq_of_pyStartsWith h
  rw [← h1] at hc
  exact List.mem_of_mem_take hc

theorem pyStrip_ne_nil_of_mem {cs : List Char} {c : Char} (hc : c ∈ cs)
    (hns : pyIsSpace c = false) : pyStrip cs ≠ [] := by
  intro h
  have := all_space_of_pyStrip_eq_nil h c hc
  rw [hns] at this
  exact Bool.false_ne_true this

theorem stripNewlines_all (cs : List Char) (q : Char → Bool) :
    (stripNewlines cs).all q = cs.all (fun c => c = '\n' || c = '\r' || q c) := by
  induction cs with
  | nil => rfl
  | cons c t ih =>
    by_cases h1 : c = '\n' <;> by_cases h2 : c = '\r' <;>
      simp [stripNewlines, List.filter_cons, List.all_cons, h1, h2] <;>
      simp [stripNewlines] at ih <;> rw [ih]

/-! ## Claims C2 and C3: digit adapter validation -/

theorem handnumbers_raw_chars_iff (cs : List Char)
    (hs : pyStrip cs ≠ [])
    (hpre : pyStartsWith cs dataImageHead = false) :
    (handnumbersValidateChars cs = .ok ()) ↔ specB64Accept cs = true := by
  have hne : cs ≠ [] := by
    intro h
    rw [h] at hs
    exact hs rfl
  unfold handnumbersValidateChars
  rw [if_neg (not_or.mpr ⟨hne, hs⟩), if_neg (by simp [hpre]),
    if_pos (List.length_pos.mpr hne)]
  by_cases hall : (stripNewlines cs).all isB64ValidChar = true
  · rw [if_neg (by simp [hall])]
    have hd : pyStartsWith cs dataHead = false := by
      by_contra hx
      have hx' : pyStartsWith cs dataHead = true := by
        simpa using hx
      have hcol : (':') ∈ cs := mem_of_pyStartsWith hx' (by decide)
      have hcol' : (':') ∈ stripNewlines cs := by
        rw [stripNewlines, List.mem_filter]
        exact ⟨hcol, by decide⟩
      have := List.all_eq_true.mp hall _ hcol'
      exact absurd this (by decide)
    unfold decodeStep
    rw [if_neg (by simp [hd])]
    rw [stripNewlines_all] at hall
    cases hdec : pyB64Decode cs
    · have hsp : specB64Accept cs = false := by
        rw [specB64Accept, hdec]
        simp
      rw [hsp]
      simp
    · have hsp : specB64Accept cs = true := by
        rw [specB64Accept, hdec]
        simp [hall]
      rw [hsp]
      simp
  · rw [if_pos (by simpa using hall)]
    rw [stripNewlines_all] at hall
    have hsp : specB64Accept cs = false := by
      rw [specB64Accept]
      rcases h2 : cs.all (fun c => c = '\n' || c = '\r' || isB64ValidChar c)
      · simp
      · exact absurd h2 hall
    rw [hsp]
    simp

/-- C3 (amended): for every non-empty, non-whitespace string that does not
start with `data:image/`, `validate_request` accepts iff every character
other than newline and carriage return is in the base64 alphabet and the
string base64-decodes successfully. -/
theorem handnumbers_raw_accept_iff (data : String)
    (hs : pyStrip data.toList ≠ [])
    (hpre : pyStartsWith data.toList dataImageHead = false) :
    (handnumbersValidate data = .ok ()) ↔ specB64Accept data.toList = true :=
  handnumbers_raw_chars_iff data.toList hs hpre

/-- C3 (counterexample): the claim quantifies over every non-empty string
without a data-URL prefix, but the whitespace-only string `"\n"` satisfies
the claim's acceptance condition (no non-newline characters, decodes to the
empty byte string) while `validate_request` rejects it as empty. -/
theorem handnumbers_raw_claim_cex :
    handnumbersValidate "\n" = .error "Empty image data provided" ∧
      "\n" ≠ "" ∧
      pyStartsWith "\n".toList dataImageHead = false ∧
      specB64Accept "\n".toList = true :=
  ⟨rfl, by decide, rfl, rfl⟩

theorem handnumbers_raw_accept_iff_witness :
    pyStrip "QQ==".toList ≠ [] ∧ handnumbersValidate "QQ==" = .ok () :=
  ⟨by decide,
    (handnumbers_raw_accept_iff "QQ==" (by decide) (by decide)).mpr (by decide)⟩

theorem handnumbers_dataurl_chars_iff (cs : List Char)
    (hpre : pyStartsWith cs dataImageHead = true) :
    (handnumbersValidateChars cs = .ok ()) ↔
      ((',') ∈ cs ∧ pyStrip (afterFirstComma cs) ≠ [] ∧
        (pyB64Decode (afterFirstComma cs)).isSome = true) := by
  have hd : ('d') ∈ cs := mem_of_pyStartsWith hpre (by decide)
  have hs : pyStrip cs ≠ [] := pyStrip_ne_nil_of_mem hd (by decide)
  have hne : cs ≠ [] := by
    intro h
    rw [h] at hs
    exact hs rfl
  unfold handnumbersValidateChars
  rw [if_neg (not_or.mpr ⟨hne, hs⟩), if_pos hpre]
  by_cases hcm : (',') ∈ cs
  · by_cases hemp : pyStrip (afterFirstComma cs) = []
    · rw [if_pos (Or.inr hemp)]
      simp [hemp]
    · rw [if_neg (not_or.mpr ⟨not_not.mpr hcm, hemp⟩)]
      unfold decodeStep
      rw [if_pos (pyStartsWith_dataHead_of_dataImage hpre), if_pos hcm]
      cases hdec : pyB64Decode (afterFirstComma cs)
      · simp [hcm, hemp, hdec]
      · simp [hcm, hemp, hdec]
  · rw [if_pos (Or.inl hcm)]
    simp [hcm]

/-- C2 (amended): for a data-URL string (prefix `data:image/`),
`validate_request` strips everything up to and including the first comma
and accepts iff a comma is present, the payload after it is not
empty/whitespace, and the payload base64-decodes successfully under
Python's `b64decode` (which silently discards characters outside the
base64 alphabet); no alphabet check is applied to the payload.  In
particular `"data:image/png;base64,"` is rejected. -/
theorem handnumbers_dataurl_accept_iff (data : String)
    (hpre : pyStartsWith data.toList dataImageHead = true) :
    (handnumbersValidate data = .ok ()) ↔
      ((',') ∈ data.toList ∧ pyStrip (afterFirstComma data.toList) ≠ [] ∧
        (pyB64Decode (afterFirstComma data.toList)).isSome = true) :=
  handnumbers_dataurl_chars_iff data.toList hpre

/-- C2 (counterexample): the claim says the data-URL payload is checked with
the same rule as raw base64 input, which requires every non-newline
character to be in the base64 alphabet. The payload `QUJD!` contains `!`,
so that rule rejects it, yet `validate_request` accepts the data-URL. -/
theorem handnumbers_dataurl_claim_cex :
    handnumbersValidate "data:image/png;base64,QUJD!" = .ok () ∧
      afterFirstComma "data:image/png;base64,QUJD!".toList = "QUJD!".toList ∧
      specB64Accept "QUJD!".toList = false :=
  ⟨rfl, rfl, rfl⟩

theorem handnumbers_dataurl_accept_iff_witness :
    handnumbersValidate "data:image/png;base64," ≠ .ok () ∧
      handnumbersValidate "data:image/png;base64,QQ==" = .ok () := by
  constructor
  · intro h
    have h2 := (handnumbers_dataurl_accept_iff "data:image/png;base64," (by decide)).mp h
    revert h2
    decide
  · exact (handnumbers_dataurl_accept_iff "data:image/png;base64,QQ==" (by decide)).mpr
      (by decide)

/-! ## JSON values (results of Python `json.loads` / `response.json()`) -/

/-- A Python value as produced by `json` deserialisation.  Python `bool` is
kept distinct from `int` because `isinstance(True, int)` holds while a JSON
boolean is not a JSON number — the distinction matters for validation. -/
inductive JValue where
  | null
  | jbool (b : Bool)
  | jint (n : Int)
  | jnum (q : ℚ)
  | jstr (s : String)
  | jarr (l : List JValue)
  | jobj (kvs : List (String × JValue))

/-! ## Metadata client: `ModelServiceClient`
(`src/backend/api/modeslinfo.py`) -/

/-- What one HTTP GET of the metadata backend can produce: a transport
failure (`aiohttp.ClientError`) or a status with a JSON body and its text. -/
inductive MetaReply where
  | connError (msg : String)
  | http (status : Nat) (body : JValue) (text : String)

/-- The serving backend as an oracle: model name and optional version to
reply. -/
def MetaBackend : Type := String → Option String → MetaReply

/-- `ModelServiceClient._get_model_info` (lines 39-72): 200 yields the JSON
body, any other status or a connection failure raises (an error result). -/
def getModelInfoImpl (base_url : String) (b : MetaBackend) (model_name : String)
    (version : Option String) : Except String JValue :=
  match b model_name version with
  | .connError _ => .error ("Cannot connect to model service at " ++ base_url)
  | .http status body text =>
    if status = 200 then .ok body
    else .error ("Model service returned status " ++ toString status ++ ": " ++ text)

/-- `str.split(',')`. -/
def splitCommaAux : List Char → List Char → List (List Char)
  | [], acc => [acc.reverse]
  | c :: t, acc =>
    if c = ',' then acc.reverse :: splitCommaAux t [] else splitCommaAux t (c :: acc)

/-- `ModelServiceClient._get_known_models` (lines 74-80):
`[model.strip() for model in config.KNOWN_MODELS.split(",")]`. -/
def knownModelsOf (cfg : String) : List String :=
  (splitCommaAux cfg.toList []).map (fun cs => String.mk (pyStrip cs))

/-- The body of the per-model loop in `get_all_models` (lines 25-31): the
model info on success, `{"error": str(e)}` on failure. -/
def metaEntry : Except String JValue → JValue
  | .ok info => info
  | .error e => .jobj [("error", .jstr e)]

/-- Python `"error" not in m` negated, for a JSON value `m`: key lookup for a
dict, element equality for a list, substring for a string; other types raise
`TypeError` (`none`). -/
def pyContainsError : JValue → Option Bool
  | .jobj kvs => some (kvs.any (fun kv => kv.1 = "error"))
  | .jarr l => some (l.any (fun v => match v with | .jstr s => s = "error" | _ => false))
  | .jstr s => some (pyHasSub "error".toList s.toList)
  | _ => none

/-- `len([m for m in all_models.values() if "error" not in m])`; `none` when
some value makes the membership test raise. -/
def countNoError : List JValue → Option Nat
  | [] => some 0
  | v :: t =>
    match pyContainsError v with
    | none => none
    | some hasErr =>
      match countNoError t with
      | none => none
      | some k => some (if hasErr then k else k + 1)

/-- `d[k] = v` on a Python dict kept as an insertion-ordered list:
an existing key keeps its position, a new key is appended. -/
def dictSet : List (String × JValue) → String → JValue → List (String × JValue)
  | [], k, v => [(k, v)]
  | (k', v') :: t, k, v =>
    if k' = k then (k, v) :: t else (k', v') :: dictSet t k v

/-- The `for model_name in known_models` loop of `get_all_models`
(lines 24-31), with `acc` the `all_models` dict built so far. -/
def buildAllModels (base_url : String) (b : MetaBackend) :
    List String → List (String × JValue) → List (String × JValue)
  | [], acc => acc
  | name :: rest, acc =>
    buildAllModels base_url b rest
      (dictSet acc name (metaEntry (getModelInfoImpl base_url b name none)))

/-- `ModelServiceClient.get_all_models` (lines 16-37). -/
def getAllModelsImpl (base_url : String) (b : MetaBackend) (cfg : String) :
    Except String JValue :=
  let allModels := buildAllModels base_url b (knownModelsOf cfg) []
  match countNoError (allModels.map Prod.snd) with
  | none => .error "argument of type 'int' is not iterable"
  | some k => .ok (JValue.jobj
      [("models", JValue.jobj allModels),
       ("total_models", JValue.jint allModels.length),
       ("available_models", JValue.jint k)])

/-! ## Model-info routes (`src/backend/routes/model_router.py`) -/

/-- A FastAPI handler outcome: a 200 body, or an `HTTPException`. -/
inductive RouterReply where
  | ok (body : JValue)
  | httpError (status : Nat) (detail : String)

/-- `GET /v1/models` (lines 14-24): the aggregate result, or 503 when
`get_all_models` raises. -/
def routeAllModels (base_url : String) (b : MetaBackend) (cfg : String) : RouterReply :=
  match getAllModelsImpl base_url b cfg with
  | .ok j => .ok j
  | .error e => .httpError 503 ("Cannot get models info: " ++ e)

/-- The attributes `ModelServiceClient` actually has: `base_url` from
`__init__` and the three methods of the class body.  Looking up any other
name on the instance raises `AttributeError`. -/
def clientHasAttr (attr : String) : Bool :=
  attr = "base_url" || attr = "get_all_models" || attr = "_get_model_info" ||
    attr = "_get_known_models"

/-- `GET /v1/models/{model_name}` (lines 26-38): the handler evaluates
`model_service.get_model_info(model_name)` inside `try`; the attribute
lookup itself can raise, and every exception is turned into a 503. -/
def routeModelInfoByName (base_url : String) (b : MetaBackend)
    (model_name : String) : RouterReply :=
  if clientHasAttr "get_model_info" then
    match getModelInfoImpl base_url b model_name none with
    | .ok j => .ok j
    | .error e => .httpError 503 ("Cannot get model info: " ++ e)
  else
    .httpError 503
      "Cannot get model info: 'ModelServiceClient' object has no attribute 'get_model_info'"

/-- `GET /v1/models/{model_name}/versions/{version}` (lines 40-53), with the
same `model_service.get_model_info(model_name, version)` call. -/
def routeModelInfoByVersion (base_url : String) (b : MetaBackend)
    (model_name version : String) : RouterReply :=
  if clientHasAttr "get_model_info" then
    match getModelInfoImpl base_url b model_name (some version) with
    | .ok j => .ok j
    | .error e => .httpError 503 ("Cannot get model info: " ++ e)
  else
    .httpError 503
      "Cannot get model info: 'ModelServiceClient' object has no attribute 'get_model_info'"

/-- C1: the single-model metadata handlers call a method named
`get_model_info`, which `ModelServiceClient` does not define (the method is
`_get_model_info`); the `AttributeError` is caught by the blanket handler,
so both endpoints answer 503 for every request — even when the backend
query would succeed, as the third conjunct shows. -/
theorem model_info_route_always_503 (base_url : String) (b : MetaBackend)
    (name version : String) (body : JValue) (t : String)
    (hok : b name none = .http 200 body t) :
    routeModelInfoByName base_url b name =
        .httpError 503
          "Cannot get model info: 'ModelServiceClient' object has no attribute 'get_model_info'" ∧
      routeModelInfoByVersion base_url b name version =
        .httpError 503
          "Cannot get model info: 'ModelServiceClient' object has no attribute 'get_model_info'" ∧
      getModelInfoImpl base_url b name none = .ok body := by
  refine ⟨rfl, rfl, ?_⟩
  rw [getModelInfoImpl, hok]
  simp

theorem model_info_route_always_503_witness :
    getModelInfoImpl "http://localhost:8501"
        (fun _ _ => .http 200 JValue.null "") "handnumbers" none = .ok JValue.null ∧
      routeModelInfoByName "http://localhost:8501"
        (fun _ _ => .http 200 JValue.null "") "handnumbers" =
        .httpError 503
          "Cannot get model info: 'ModelServiceClient' object has no attribute 'get_model_info'" :=
  ⟨(model_info_route_always_503 "http://localhost:8501"
      (fun _ _ => .http 200 JValue.null "") "handnumbers" "1" JValue.null "" rfl).2.2,
    (model_info_route_always_503 "http://localhost:8501"
      (fun _ _ => .http 200 JValue.null "") "handnumbers" "1" JValue.null "" rfl).1⟩

/-- Whether a client call succeeded. -/
def exceptIsOk : Except String JValue → Bool
  | .ok _ => true
  | .error _ => false

theorem dictSet_fresh {acc : List (String × JValue)} {k : String} (v : JValue)
    (h : k ∉ acc.map Prod.fst) : dictSet acc k v = acc ++ [(k, v)] := by
  induction acc with
  | nil => rfl
  | cons kv t ih =>
    simp only [List.map_cons, List.mem_cons] at h
    push_neg at h
    rw [dictSet, if_neg (by simpa using h.1.symm), ih h.2]
    rfl

theorem buildAllModels_eq_map (base_url : String) (b : MetaBackend) :
    ∀ (names : List String) (acc : List (String × JValue)), names.Nodup →
      (∀ n ∈ names, n ∉ acc.map Prod.fst) →
      buildAllModels base_url b names acc =
        acc ++ names.map (fun name =>
          (name, metaEntry (getModelInfoImpl base_url b name none))) := by
  intro names
  induction names with
  | nil => intro acc _ _; simp [buildAllModels]
  | cons n t ih =>
    intro acc hnd hfresh
    rw [buildAllModels, dictSet_fresh _ (hfresh n (List.mem_cons_self n t))]
    rw [ih (acc ++ [(n, metaEntry (getModelInfoImpl base_url b n none))])
      (List.nodup_cons.mp hnd).2 ?_]
    · simp
    · intro m hm
      simp only [List.map_append, List.mem_append]
      push_neg
      refine ⟨hfresh m (List.mem_cons_of_mem n hm), ?_⟩
      simp only [List.map_cons, List.map_nil, List.mem_singleton]
      intro he
      exact (List.nodup_cons.mp hnd).1 (he ▸ hm)

theorem countNoError_map_spec (base_url : String) (b : MetaBackend) :
    ∀ (names : List String),
      (∀ name ∈ names, ∀ j,
        getModelInfoImpl base_url b name none = Except.ok j →
          pyContainsError j = some false) →
      countNoError (names.map (fun name =>
          metaEntry (getModelInfoImpl base_url b name none))) =
        some ((names.filter (fun name =>
          exceptIsOk (getModelInfoImpl base_url b name none))).length) := by
  intro names
  induction names with
  | nil => intro _; rfl
  | cons n t ih =>
    intro h
    have ht := ih (fun m hm => h m (List.mem_cons_of_mem n hm))
    cases hr : getModelInfoImpl base_url b n none with
    | ok j =>
      have hj := h n (List.mem_cons_self n t) j hr
      have hhead : metaEntry (getModelInfoImpl base_url b n none) = j := by
        rw [hr]
        rfl
      have hcond : exceptIsOk (getModelInfoImpl base_url b n none) = true := by
        rw [hr]
        rfl
      simp only [List.map_cons, List.filter_cons, hhead, hcond, countNoError, hj, ht]
      simp
    | error e =>
      have hhead : metaEntry (getModelInfoImpl base_url b n none) =
          JValue.jobj [("error", JValue.jstr e)] := by
        rw [hr]
        rfl
      have hcond : exceptIsOk (getModelInfoImpl base_url b n none) = false := by
        rw [hr]
        rfl
      have herr : pyContainsError (JValue.jobj [("error", JValue.jstr e)]) = some true := by
        simp [pyContainsError]
      simp only [List.map_cons, List.filter_cons, hhead, hcond, countNoError, herr, ht]
      simp

/-- C8: `get_all_models` queries each configured model independently; a
failing model contributes an `{"error": message}` entry without aborting the
rest, `available_models` counts the models whose query succeeded, and when
the backend is unreachable for every model the aggregate route still
answers 200 (an `ok` body) with every entry an error and
`available_models = 0`.  Hypotheses: the configured names are distinct, and
a successful metadata body never itself contains `"error"` (the count reads
`"error" not in body`). -/
theorem get_all_models_claim (base_url : String) (b : MetaBackend) (cfg : String)
    (hnd : (knownModelsOf cfg).Nodup)
    (hbody : ∀ name ∈ knownModelsOf cfg, ∀ j,
      getModelInfoImpl base_url b name none = Except.ok j →
        pyContainsError j = some false) :
    routeAllModels base_url b cfg = RouterReply.ok (JValue.jobj
      [("models", JValue.jobj ((knownModelsOf cfg).map (fun name =>
          (name, metaEntry (getModelInfoImpl base_url b name none))))),
       ("total_models", JValue.jint ((knownModelsOf cfg).length : Int)),
       ("available_models", JValue.jint ((((knownModelsOf cfg).filter
          (fun name => exceptIsOk (getModelInfoImpl base_url b name none))).length : Nat) : Int))]) ∧
    (∀ name ∈ knownModelsOf cfg, ∀ e,
      getModelInfoImpl base_url b name none = Except.error e →
        metaEntry (getModelInfoImpl base_url b name none) =
          JValue.jobj [("error", JValue.jstr e)]) ∧
    ((∀ name ∈ knownModelsOf cfg,
        exceptIsOk (getModelInfoImpl base_url b name none) = false) →
      ((knownModelsOf cfg).filter
        (fun name => exceptIsOk (getModelInfoImpl base_url b name none))).length = 0) := by
  refine ⟨?_, ?_, ?_⟩
  · rw [routeAllModels, getAllModelsImpl]
    rw [buildAllModels_eq_map base_url b (knownModelsOf cfg) [] hnd (by simp)]
    rw [List.nil_append, List.map_map]
    have hcomp : (Prod.snd ∘ fun name =>
        (name, metaEntry (getModelInfoImpl base_url b name none))) =
        fun name => metaEntry (getModelInfoImpl base_url b name none) := rfl
    rw [hcomp, countNoError_map_spec base_url b _ hbody]
    simp [List.length_map]
  · intro name _ e he
    rw [he]
    rfl
  · intro h
    rw [List.length_eq_zero, List.filter_eq_nil_iff]
    intro a ha
    rw [h a ha]
    simp

theorem get_all_models_claim_witness :
    routeAllModels "http://localhost:8501" (fun _ _ => .connError "refused")
        "handnumbers,kmeans" = RouterReply.ok (JValue.jobj
      [("models", JValue.jobj
          [("handnumbers", JValue.jobj [("error",
              JValue.jstr "Cannot connect to model service at http://localhost:8501")]),
           ("kmeans", JValue.jobj [("error",
              JValue.jstr "Cannot connect to model service at http://localhost:8501")])]),
       ("total_models", JValue.jint 2),
       ("available_models", JValue.jint 0)]) := by
  have h := get_all_models_claim "http://localhost:8501"
    (fun _ _ => .connError "refused") "handnumbers,kmeans"
    (by decide) (by intro name _ j hj; exact absurd hj (by simp [getModelInfoImpl]))
  exact h.1

/-! ## Cluster adapter: `ModelKMeansPlusPlus.validate_request`
(`src/backend/api/kmeansPlusPlus.py`, lines 29-64) -/

/-- `isinstance(coord, (int, float))`: Python `bool` is a subclass of `int`,
so a boolean coordinate passes this check. -/
def isPyNumeric : JValue → Bool
  | .jint _ => true
  | .jnum _ => true
  | .jbool _ => true
  | _ => false

/-- The inner `for j, coord in enumerate(point)` loop (lines 60-62). -/
def checkCoords (i : Nat) : Nat → List JValue → Except String Unit
  | _, [] => .ok ()
  | j, c :: rest =>
    if isPyNumeric c then checkCoords i (j + 1) rest
    else .error ("Point " ++ toString i ++ ", coordinate " ++ toString j ++
      " must be a number")

/-- The outer `for i, point in enumerate(points)` loop (lines 56-62). -/
def checkPoints : Nat → List JValue → Except String Unit
  | _, [] => .ok ()
  | i, p :: rest =>
    match p with
    | .jarr l =>
      if l.length = 2 then
        match checkCoords i 0 l with
        | .ok _ => checkPoints (i + 1) rest
        | .error e => .error e
      else .error ("Point " ++ toString i ++ " must be a 2D coordinate [x, y]")
    | _ => .error ("Point " ++ toString i ++ " must be a 2D coordinate [x, y]")

/-- Lines 49-64 of `validate_request`: the checks on the parsed JSON value
(`not isinstance(points, list) or len(points) == 0`, the 1000-point cap,
the per-point loop, and `return points`). -/
def parsePointsStep : JValue → Except String (List JValue)
  | .jarr points =>
    if points.length = 0 then .error "Points must be a non-empty array"
    else if 1000 < points.length then
      .error "Too many points. Maximum 1000 points allowed."
    else
      match checkPoints 0 points with
      | .ok _ => .ok points
      | .error e => .error e
  | _ => .error "Points must be a non-empty array"

/-- `ModelKMeansPlusPlus.validate_request(data)`, with `json.loads` supplied
as the oracle `loads` (`none` models a `JSONDecodeError`). -/
def kmeansValidate (loads : String → Option JValue) (data : String) :
    Except String (List JValue) :=
  if data.toList = [] ∨ pyStrip data.toList = [] then .error "Empty data provided"
  else
    match loads data with
    | none => .error "Invalid JSON format"
    | some v => parsePointsStep v

/-- What the per-point loop accepts: a 2-element array of values passing
the `isinstance(coord, (int, float))` check. -/
def isValidPoint : JValue → Bool
  | .jarr [a, b] => isPyNumeric a && isPyNumeric b
  | _ => false

/-- A JSON number in the spec's sense: an int or a float, not a boolean. -/
def isJsonNumber : JValue → Bool
  | .jint _ => true
  | .jnum _ => true
  | _ => false

theorem checkCoords_pair_ok (i : Nat) (a b : JValue) :
    (checkCoords i 0 [a, b] = .ok ()) ↔ (isPyNumeric a && isPyNumeric b) = true := by
  cases ha : isPyNumeric a <;> cases hb : isPyNumeric b <;>
    simp [checkCoords, ha, hb]

theorem checkPoints_ok_iff : ∀ (pts : List JValue) (i : Nat),
    (checkPoints i pts = .ok ()) ↔ ∀ p ∈ pts, isValidPoint p = true := by
  intro pts
  induction pts with
  | nil => intro i; simp [checkPoints]
  | cons p rest ih =>
    intro i
    match p with
    | .jarr l =>
      match l with
      | [] => simp [checkPoints, isValidPoint]
      | [a] => simp [checkPoints, isValidPoint]
      | [a, b] =>
        rw [checkPoints]
        simp only [List.length_cons, List.length_nil, if_pos]
        cases hc : checkCoords i 0 [a, b] with
        | ok u =>
          have hab := (checkCoords_pair_ok i a b).mp (by rw [hc])
          simp only [ih (i + 1), List.mem_cons]
          constructor
          · intro h q hq
            rcases hq with hq | hq
            · subst hq
              simpa [isValidPoint] using hab
            · exact h q hq
          · intro h q hq
            exact h q (Or.inr hq)
        | error e =>
          have hab : ¬ (isPyNumeric a && isPyNumeric b) = true := by
            intro hx
            have := (checkCoords_pair_ok i a b).mpr hx
            rw [hc] at this
            exact Except.noConfusion this
          simp only [List.mem_cons]
          constructor
          · intro h
            exact absurd h (by simp)
          · intro h
            exact absurd (by simpa [isValidPoint] using h (JValue.jarr [a, b]) (Or.inl rfl))
              hab
      | a :: b :: c :: t =>
        rw [checkPoints]
        simp only [List.length_cons]
        rw [if_neg (by omega)]
        simp only [List.mem_cons]
        constructor
        · intro h
          exact absurd h (by simp)
        · intro h
          have := h (JValue.jarr (a :: b :: c :: t)) (Or.inl rfl)
          have hfalse : isValidPoint (JValue.jarr (a :: b :: c :: t)) = false := rfl
          rw [hfalse] at this
          exact absurd this (Bool.false_ne_true)
    | .null => simp [checkPoints, isValidPoint]
    | .jbool x => simp [checkPoints, isValidPoint]
    | .jint x => simp [checkPoints, isValidPoint]
    | .jnum x => simp [checkPoints, isValidPoint]
    | .jstr x => simp [checkPoints, isValidPoint]
    | .jobj x => simp [checkPoints, isValidPoint]

theorem kmeansValidate_characterization (loads : String → Option JValue)
    (data : String) (pts : List JValue) :
    kmeansValidate loads data = .ok pts ↔
      (pyStrip data.toList ≠ [] ∧ loads data = some (.jarr pts) ∧
        1 ≤ pts.length ∧ pts.length ≤ 1000 ∧ ∀ p ∈ pts, isValidPoint p = true) := by
  by_cases hempty : data.toList = [] ∨ pyStrip data.toList = []
  · rw [kmeansValidate, if_pos hempty]
    have hps : pyStrip data.toList = [] := by
      rcases hempty with h | h
      · rw [h]
        rfl
      · exact h
    constructor
    · intro h
      exact absurd h (by simp)
    · rintro ⟨hcon, -⟩
      exact absurd hps hcon
  · rw [not_or] at hempty
    rw [kmeansValidate, if_neg (not_or.mpr hempty)]
    cases hl : loads data with
    | none =>
      constructor
      · intro h
        exact absurd h (by simp)
      · rintro ⟨-, hl2, -⟩
        exact Option.noConfusion hl2
    | some v =>
      show parsePointsStep v = Except.ok pts ↔ _
      cases v with
      | jarr points =>
        rw [parsePointsStep]
        rcases Nat.eq_zero_or_pos points.length with h0 | h0
        · rw [if_pos h0]
          constructor
          · intro h
            exact absurd h (by simp)
          · rintro ⟨-, hl2, h1, -, -⟩
            have heq : points = pts := by simpa using hl2
            rw [← heq] at h1
            omega
        · have h0' : ¬ points.length = 0 := by omega
          rw [if_neg h0']
          by_cases h1000 : 1000 < points.length
          · rw [if_pos h1000]
            constructor
            · intro h
              exact absurd h (by simp)
            · rintro ⟨-, hl2, -, h2, -⟩
              have heq : points = pts := by simpa using hl2
              rw [← heq] at h2
              omega
          · rw [if_neg h1000]
            cases hcp : checkPoints 0 points with
            | ok u =>
              show Except.ok points = Except.ok pts ↔ _
              have hall := (checkPoints_ok_iff points 0).mp (by rw [hcp])
              constructor
              · intro h
                have heq : points = pts := by simpa using h
                subst heq
                exact ⟨hempty.2, rfl, by omega, by omega, hall⟩
              · rintro ⟨-, hl2, -, -, -⟩
                have heq : points = pts := by simpa using hl2
                rw [heq]
            | error e =>
              show Except.error e = Except.ok pts ↔ _
              constructor
              · intro h
                exact absurd h (by simp)
              · rintro ⟨-, hl2, -, -, hall⟩
                have heq : points = pts := by simpa using hl2
                have hok := (checkPoints_ok_iff points 0).mpr (by rw [heq]; exact hall)
                rw [hcp] at hok
                exact absurd hok (by simp)
      | null => simp [parsePointsStep, hl]
      | jbool x => simp [parsePointsStep, hl]
      | jint x => simp [parsePointsStep, hl]
      | jnum x => simp [parsePointsStep, hl]
      | jstr x => simp [parsePointsStep, hl]
      | jobj x => simp [parsePointsStep, hl]

/-- C4 (amended): `validate_request` fails exactly when the payload is
empty/whitespace, is not parseable JSON, does not parse to a non-empty
array of at most 1000 elements, or contains an element that is not a
2-element array of values passing `isinstance(coord, (int, float))` — where
a Python boolean passes that check; on success it returns exactly the
parsed points, unchanged and in input order. -/
theorem kmeans_validate_claim (loads : String → Option JValue) (data : String)
    (pts : List JValue) :
    kmeansValidate loads data = .ok pts ↔
      (pyStrip data.toList ≠ [] ∧ loads data = some (.jarr pts) ∧
        1 ≤ pts.length ∧ pts.length ≤ 1000 ∧ ∀ p ∈ pts, isValidPoint p = true) :=
  kmeansValidate_characterization loads data pts

/-- A `json.loads` oracle returning one point with integer coordinates. -/
def loadsOnePoint : String → Option JValue :=
  fun _ => some (JValue.jarr [JValue.jarr [JValue.jint 1, JValue.jint 2]])

theorem kmeans_validate_claim_witness :
    kmeansValidate loadsOnePoint "[[1, 2]]" =
      .ok [JValue.jarr [JValue.jint 1, JValue.jint 2]] :=
  (kmeans_validate_claim loadsOnePoint "[[1, 2]]" _).mpr
    ⟨by decide, rfl, by decide, by decide, by decide⟩

/-- A `json.loads` oracle returning one point with boolean coordinates. -/
def loadsBoolPoint : String → Option JValue :=
  fun _ => some (JValue.jarr [JValue.jarr [JValue.jbool true, JValue.jbool false]])

/-- C4 (counterexample): `"[[true, false]]"` parses to one point whose
coordinates are JSON booleans — not JSON numbers — yet `validate_request`
accepts it and returns it, because `isinstance(True, int)` holds in Python,
while the claim says a non-numeric coordinate yields `InvalidInput`. -/
theorem kmeans_validate_claim_cex :
    kmeansValidate loadsBoolPoint "[[true, false]]" =
      .ok [JValue.jarr [JValue.jbool true, JValue.jbool false]] ∧
      isJsonNumber (JValue.jbool true) = false ∧
      isJsonNumber (JValue.jbool false) = false :=
  ⟨rfl, rfl, rfl⟩

/-- C10: every payload parsing to an array of 1 to 1000 two-element arrays
whose coordinates are JSON booleans is accepted by the cluster adapter's
`validate_request`, which returns the boolean points unchanged: a boolean
passes the `isinstance(coord, (int, float))` numeric check. -/
theorem kmeans_validate_bool_pass (loads : String → Option JValue) (data : String)
    (pts : List JValue)
    (hs : pyStrip data.toList ≠ [])
    (hl : loads data = some (.jarr pts))
    (hlen : 1 ≤ pts.length ∧ pts.length ≤ 1000)
    (hpts : ∀ p ∈ pts, ∃ a b : Bool, p = JValue.jarr [JValue.jbool a, JValue.jbool b]) :
    kmeansValidate loads data = .ok pts := by
  refine (kmeansValidate_characterization loads data pts).mpr
    ⟨hs, hl, hlen.1, hlen.2, ?_⟩
  intro p hp
  obtain ⟨a, b, rfl⟩ := hpts p hp
  rfl

theorem kmeans_validate_bool_pass_witness :
    kmeansValidate loadsBoolPoint "[[true, false]]" =
      .ok [JValue.jarr [JValue.jbool true, JValue.jbool false]] :=
  kmeans_validate_bool_pass loadsBoolPoint "[[true, false]]" _ (by decide) rfl
    (by decide)
    (by
      intro p hp
      rw [List.mem_singleton] at hp
      exact ⟨true, false, hp⟩)

/-! ## Cluster adapter: response post-processing in
`ModelKMeansPlusPlus.predict` (`src/backend/api/kmeansPlusPlus.py`,
lines 97-155).  Backend floats are embedded as rationals. -/

/-- A JSON field that may arrive as a single scalar or as an array. -/
inductive ScalarOrList (α : Type) where
  | scalar (a : α)
  | list (l : List α)

/-- The fields extracted from `predictions[0]` of the TF-Serving response
(lines 103-105).  Cluster ids are naturals: the backend assigns clusters
`0..k-1`. -/
structure TFClusterPred where
  cluster_assignments : ScalarOrList Nat
  distances_to_assigned_cluster : ScalarOrList ℚ
  centroids : List (List (List ℚ))

/-- One record of the per-point `predictions_array` (lines 121-127). -/
structure PointPred where
  cluster_assignments : Nat
  centroids : List (List ℚ)
  distances_to_assigned_cluster : ℚ

/-- The adapter's `PredictResponse` (lines 150-155). -/
structure ClusterResponse where
  prediction : Nat
  confidence : ℚ
  probabilities : List ℚ
  predictions : List PointPred

/-- Lines 112-115: `if not isinstance(x, list): x = [x] * len(points)`. -/
def clusterNormalize {α : Type} : ScalarOrList α → Nat → List α
  | .scalar a, n => List.replicate n a
  | .list l, _ => l

/-- Line 118: `centroids_3d[0] if isinstance(centroids_3d, list) and
len(centroids_3d) > 0 else centroids_3d` (an empty list stays empty). -/
def canonicalCentroids : List (List (List ℚ)) → List (List ℚ)
  | c :: _ => c
  | [] => []

/-- Line 131: `max(set(ca), key=ca.count)` — the dominant cluster.  Python's
`max` keeps the first maximal-count value in the set's iteration order,
which is implementation-defined; we iterate over the distinct values. -/
def listMode (ca : List Nat) : Nat :=
  ca.dedup.foldl (fun best v => if ca.count best < ca.count v then v else best)
    (ca.headD 0)

/-- Line 144: `cluster_counts[assignment] += 1`. -/
def incrAt (counts : List Nat) (a : Nat) : List Nat :=
  counts.set a (counts.getD a 0 + 1)

/-- Lines 97-155 after a 200 response from the serving backend: normalize
scalar fields, build the per-point records, compute the dominant cluster,
the distance-based confidence and the per-cluster probabilities.  (After
normalization `cluster_assignments` is always a list, so the scalar `else`
branches of lines 134-135 and 148 are unreachable and the reachable branch
is embedded.) -/
def clusterPost (points : List (List ℚ)) (tf : TFClusterPred) : ClusterResponse :=
  let cluster_assignments := clusterNormalize tf.cluster_assignments points.length
  let distances := clusterNormalize tf.distances_to_assigned_cluster points.length
  let centroids := canonicalCentroids tf.centroids
  let predictions_array : List PointPred := (List.range points.length).map (fun i =>
    { cluster_assignments := cluster_assignments.getD i 0
      centroids := centroids
      distances_to_assigned_cluster := distances.getD i 0 })
  let dominant_cluster : Nat :=
    if cluster_assignments = [] then 0 else listMode cluster_assignments
  let avg_distance : ℚ :=
    if cluster_assignments = [] then 0
    else if distances.length = 0 then 0
    else distances.sum / (distances.length : ℚ)
  let confidence : ℚ := max 0 (min 1 (1 - avg_distance / 10))
  let max_cluster : Nat :=
    if cluster_assignments = [] then 1 else cluster_assignments.foldl max 0 + 1
  let cluster_counts := cluster_assignments.foldl incrAt (List.replicate max_cluster 0)
  let total := cluster_counts.sum
  let probabilities : List ℚ :=
    if 0 < total then cluster_counts.map (fun c : Nat => (c : ℚ) / (total : ℚ))
    else [1]
  { prediction := dominant_cluster
    confidence := confidence
    probabilities := probabilities
    predictions := predictions_array }

theorem getD_replicate_of_lt {α : Type} (a d : α) {n i : Nat} (h : i < n) :
    (List.replicate n a).getD i d = a := by
  rw [List.getD_eq_getElem?_getD, List.getElem?_replicate, if_pos h]
  rfl

theorem getD_incrAt (counts : List Nat) (a i : Nat) (ha : a < counts.length) :
    (incrAt counts a).getD i 0 = counts.getD i 0 + (if a = i then 1 else 0) := by
  rw [incrAt, List.getD_eq_getElem?_getD, List.getElem?_set]
  by_cases hai : a = i
  · subst hai
    simp [ha]
  · rw [if_neg hai, if_neg hai, List.getD_eq_getElem?_getD]
    simp

theorem foldl_incrAt_length : ∀ (ca : List Nat) (acc : List Nat),
    (List.foldl incrAt acc ca).length = acc.length := by
  intro ca
  induction ca with
  | nil => intro acc; rfl
  | cons a t ih =>
    intro acc
    rw [List.foldl_cons, ih, incrAt, List.length_set]

theorem foldl_incrAt_getD : ∀ (ca : List Nat) (acc : List Nat) (i : Nat),
    (∀ a ∈ ca, a < acc.length) →
    (List.foldl incrAt acc ca).getD i 0 = acc.getD i 0 + ca.count i := by
  intro ca
  induction ca with
  | nil =>
    intro acc i _
    simp
  | cons a t ih =>
    intro acc i hb
    have ha : a < acc.length := hb a (List.mem_cons_self a t)
    have hlen : ∀ x ∈ t, x < (incrAt acc a).length := by
      intro x hx
      rw [incrAt, List.length_set]
      exact hb x (List.mem_cons_of_mem a hx)
    rw [List.foldl_cons, ih (incrAt acc a) i hlen, getD_incrAt acc a i ha,
      List.count_cons]
    by_cases hai : a = i
    · simp [hai]
      omega
    · simp [hai]

theorem sum_incrAt : ∀ (counts : List Nat) (a : Nat), a < counts.length →
    (incrAt counts a).sum = counts.sum + 1 := by
  intro counts
  induction counts with
  | nil =>
    intro a h
    simp at h
  | cons c t ih =>
    intro a h
    cases a with
    | zero =>
      simp [incrAt]
      omega
    | succ n =>
      have hn : n < t.length := by
        simpa using h
      have := ih n hn
      rw [incrAt] at this ⊢
      simp only [List.set_cons_succ, List.getD_cons_succ, List.sum_cons, this]
      omega

theorem foldl_incrAt_sum : ∀ (ca : List Nat) (acc : List Nat),
    (∀ a ∈ ca, a < acc.length) →
    (List.foldl incrAt acc ca).sum = acc.sum + ca.length := by
  intro ca
  induction ca with
  | nil =>
    intro acc _
    simp
  | cons a t ih =>
    intro acc hb
    have ha : a < acc.length := hb a (List.mem_cons_self a t)
    have hlen : ∀ x ∈ t, x < (incrAt acc a).length := by
      intro x hx
      rw [incrAt, List.length_set]
      exact hb x (List.mem_cons_of_mem a hx)
    rw [List.foldl_cons, ih (incrAt acc a) hlen, sum_incrAt acc a ha]
    simp
    omega

theorem le_foldl_max_init : ∀ (l : List Nat) (i : Nat), i ≤ l.foldl max i := by
  intro l
  induction l with
  | nil => intro i; exact le_refl i
  | cons a t ih =>
    intro i
    rw [List.foldl_cons]
    exact le_trans (le_max_left i a) (ih (max i a))

theorem mem_le_foldl_max : ∀ (l : List Nat) (i a : Nat), a ∈ l → a ≤ l.foldl max i := by
  intro l
  induction l with
  | nil =>
    intro i a ha
    exact absurd ha (List.not_mem_nil a)
  | cons b t ih =>
    intro i a ha
    rcases List.mem_cons.mp ha with h | h
    · subst h
      rw [List.foldl_cons]
      exact le_trans (le_max_right i a) (le_foldl_max_init t (max i a))
    · rw [List.foldl_cons]
      exact ih (max i b) a h

theorem counts_eq_range_map (ca : List Nat) (k : Nat) (hk : ∀ a ∈ ca, a < k) :
    List.foldl incrAt (List.replicate k 0) ca =
      (List.range k).map (fun i => ca.count i) := by
  apply List.ext_getElem
  · rw [foldl_incrAt_length, List.length_replicate, List.length_map,
      List.length_range]
  · intro i h1 h2
    have hik : i < k := by
      rwa [foldl_incrAt_length, List.length_replicate] at h1
    rw [List.getElem_map, List.getElem_range,
      ← List.getD_eq_getElem (List.foldl incrAt (List.replicate k 0) ca) 0 h1,
      foldl_incrAt_getD ca (List.replicate k 0) i
        (by rw [List.length_replicate]; exact hk),
      getD_replicate_of_lt 0 0 hik]
    omega

theorem counts_sum_eq_length (ca : List Nat) (k : Nat) (hk : ∀ a ∈ ca, a < k) :
    (List.foldl incrAt (List.replicate k 0) ca).sum = ca.length := by
  rw [foldl_incrAt_sum ca _ (by rw [List.length_replicate]; exact hk)]
  simp

theorem sum_map_div_nat (l : List Nat) (q : ℚ) :
    (l.map (fun c : Nat => (c : ℚ) / q)).sum = ((l.sum : ℕ) : ℚ) / q := by
  induction l with
  | nil => simp
  | cons c t ih =>
    rw [List.map_cons, List.sum_cons, ih, List.sum_cons]
    push_cast
    rw [add_div]

theorem clusterPost_probabilities (points : List (List ℚ)) (tf : TFClusterPred) :
    (clusterPost points tf).probabilities =
      (if 0 < (List.foldl incrAt
          (List.replicate
            (if clusterNormalize tf.cluster_assignments points.length = [] then 1
             else (clusterNormalize tf.cluster_assignments points.length).foldl max 0 + 1)
            0)
          (clusterNormalize tf.cluster_assignments points.length)).sum then
        (List.foldl incrAt
          (List.replicate
            (if clusterNormalize tf.cluster_assignments points.length = [] then 1
             else (clusterNormalize tf.cluster_assignments points.length).foldl max 0 + 1)
            0)
          (clusterNormalize tf.cluster_assignments points.length)).map
          (fun c : Nat => (c : ℚ) /
            ((List.foldl incrAt
              (List.replicate
                (if clusterNormalize tf.cluster_assignments points.length = [] then 1
                 else (clusterNormalize tf.cluster_assignments points.length).foldl max 0 + 1)
                0)
              (clusterNormalize tf.cluster_assignments points.length)).sum : ℚ))
      else [1]) := rfl

theorem clusterPost_confidence (points : List (List ℚ)) (tf : TFClusterPred) :
    (clusterPost points tf).confidence =
      max 0 (min 1 (1 -
        (if clusterNormalize tf.cluster_assignments points.length = [] then 0
         else if (clusterNormalize tf.distances_to_assigned_cluster points.length).length = 0
           then 0
         else (clusterNormalize tf.distances_to_assigned_cluster points.length).sum /
           ((clusterNormalize tf.distances_to_assigned_cluster points.length).length : ℚ))
        / 10)) := rfl

theorem clusterPost_predictions (points : List (List ℚ)) (tf : TFClusterPred) :
    (clusterPost points tf).predictions =
      (List.range points.length).map (fun i =>
        { cluster_assignments :=
            (clusterNormalize tf.cluster_assignments points.length).getD i 0
          centroids := canonicalCentroids tf.centroids
          distances_to_assigned_cluster :=
            (clusterNormalize tf.distances_to_assigned_cluster points.length).getD i 0 :
          PointPred }) := rfl

/-- C5 (counterexample): with two submitted points and a scalar
`cluster_assignments`, the normalization produces `[s] * len(points)` —
a two-element list, not the single-element sequence the claim states. -/
theorem cluster_scalar_claim_cex :
    clusterNormalize (ScalarOrList.scalar (0 : Nat)) 2 = [0, 0] ∧
      ([0, 0] : List Nat).length ≠ 1 :=
  ⟨rfl, by decide⟩

/-- C5 (amended): a scalar `cluster_assignments` or
`distances_to_assigned_cluster` is normalized into a list with one copy of
the scalar per submitted point (`[x] * len(points)`; a single-element
sequence exactly when one point was submitted) before further processing,
and the pipeline then completes: every per-point record carries
the scalar values. -/
theorem cluster_scalar_normalized (points : List (List ℚ)) (a : Nat) (d : ℚ)
    (c3 : List (List (List ℚ))) :
    clusterNormalize (ScalarOrList.scalar a) points.length =
        List.replicate points.length a ∧
      (clusterPost points ⟨.scalar a, .scalar d, c3⟩).predictions.length =
        points.length ∧
      (∀ pp ∈ (clusterPost points ⟨.scalar a, .scalar d, c3⟩).predictions,
        pp.cluster_assignments = a ∧ pp.distances_to_assigned_cluster = d) ∧
      (points.length = 1 →
        clusterNormalize (ScalarOrList.scalar a) points.length = [a]) := by
  refine ⟨rfl, ?_, ?_, ?_⟩
  · rw [clusterPost_predictions, List.length_map, List.length_range]
  · intro pp hpp
    rw [clusterPost_predictions] at hpp
    obtain ⟨i, hi, rfl⟩ := List.mem_map.mp hpp
    have hin : i < points.length := List.mem_range.mp hi
    constructor
    · show (clusterNormalize (ScalarOrList.scalar a) points.length).getD i 0 = a
      rw [clusterNormalize, getD_replicate_of_lt a 0 hin]
    · show (clusterNormalize (ScalarOrList.scalar d) points.length).getD i 0 = d
      rw [clusterNormalize, getD_replicate_of_lt d 0 hin]
  · intro h1
    rw [h1]
    rfl

theorem cluster_scalar_normalized_witness :
    (clusterPost [[1, 2], [3, 4]]
        ⟨ScalarOrList.scalar 0, ScalarOrList.scalar 2, []⟩).predictions.length = 2 ∧
      clusterNormalize (ScalarOrList.scalar (0 : Nat))
        ([[5, 5]] : List (List ℚ)).length = [0] :=
  ⟨(cluster_scalar_normalized [[1, 2], [3, 4]] 0 2 []).2.1,
    (cluster_scalar_normalized [[5, 5]] 0 2 []).2.2.2 rfl⟩

/-- C6: when at least one point is assigned a cluster, the `probabilities`
field sums to exactly 1 and its entries are the per-cluster assignment
fractions (count of cluster id `i` divided by the number of assignments),
ordered by cluster id from 0 to the maximum assigned id; with no
assignments it is `[1.0]`. -/
theorem cluster_probabilities_claim (points : List (List ℚ)) (tf : TFClusterPred)
    (ca : List Nat)
    (hca : ca = clusterNormalize tf.cluster_assignments points.length) :
    (ca ≠ [] →
      (clusterPost points tf).probabilities.sum = 1 ∧
      (clusterPost points tf).probabilities =
        (List.range (ca.foldl max 0 + 1)).map
          (fun i => (ca.count i : ℚ) / (ca.length : ℚ))) ∧
    (ca = [] → (clusterPost points tf).probabilities = [1]) := by
  rw [clusterPost_probabilities, ← hca]
  constructor
  · intro hne
    rw [if_neg hne]
    have hbound : ∀ a ∈ ca, a < ca.foldl max 0 + 1 := fun x hx =>
      Nat.lt_succ_of_le (mem_le_foldl_max ca 0 x hx)
    have hcnt := counts_eq_range_map ca (ca.foldl max 0 + 1) hbound
    have hsum := counts_sum_eq_length ca (ca.foldl max 0 + 1) hbound
    have hlen : 0 < ca.length := List.length_pos.mpr hne
    have hlenQ : ((ca.length : ℕ) : ℚ) ≠ 0 := by
      exact_mod_cast Nat.pos_iff_ne_zero.mp hlen
    rw [hsum, if_pos hlen]
    constructor
    · rw [sum_map_div_nat, hsum]
      exact div_self hlenQ
    · rw [hcnt, List.map_map]
      rfl
  · intro he
    rw [he]
    rfl

theorem cluster_probabilities_claim_witness :
    (clusterPost [[1, 2], [3, 4], [5, 6]]
        ⟨.list [0, 1, 0], .list [1/2, 3/2, 1/2],
          [[[1, 1], [4, 4]]]⟩).probabilities.sum = 1 ∧
      ([0, 1, 0] : List Nat) ≠ [] :=
  ⟨((cluster_probabilities_claim [[1, 2], [3, 4], [5, 6]]
      ⟨.list [0, 1, 0], .list [1/2, 3/2, 1/2], [[[1, 1], [4, 4]]]⟩
      [0, 1, 0] rfl).1 (by decide)).1,
    by decide⟩

/-- C7: with `d` the mean of the (normalized) distances, the response's
confidence is `max(0, min(1, 1 - d/10))`; in particular `d = 0` yields 1,
`d = 10` yields 0 and `d = 20` yields 0 (clamped).  The hypotheses require
the normalized assignment and distance lists to be non-empty, since the
mean presupposes them (with no assignments the code sets the average
distance to 0 regardless of the distances). -/
theorem cluster_confidence_claim (points : List (List ℚ)) (tf : TFClusterPred)
    (ca : List Nat) (ds : List ℚ)
    (hca : ca = clusterNormalize tf.cluster_assignments points.length)
    (hds : ds = clusterNormalize tf.distances_to_assigned_cluster points.length)
    (hcane : ca ≠ []) (hdsne : ds ≠ []) :
    (clusterPost points tf).confidence =
        max 0 (min 1 (1 - (ds.sum / (ds.length : ℚ)) / 10)) ∧
      (ds.sum / (ds.length : ℚ) = 0 → (clusterPost points tf).confidence = 1) ∧
      (ds.sum / (ds.length : ℚ) = 10 → (clusterPost points tf).confidence = 0) ∧
      (ds.sum / (ds.length : ℚ) = 20 → (clusterPost points tf).confidence = 0) := by
  have hmain : (clusterPost points tf).confidence =
      max 0 (min 1 (1 - (ds.sum / (ds.length : ℚ)) / 10)) := by
    rw [clusterPost_confidence, ← hca, ← hds, if_neg hcane,
      if_neg (by simpa [List.length_eq_zero] using hdsne)]
  refine ⟨hmain, ?_, ?_, ?_⟩
  · intro h
    rw [hmain, h]
    norm_num
  · intro h
    rw [hmain, h]
    norm_num
  · intro h
    rw [hmain, h]
    norm_num

theorem cluster_confidence_claim_witness :
    (clusterPost [[1, 2]] ⟨.list [0], .list [0], []⟩).confidence = 1 :=
  (cluster_confidence_claim [[1, 2]] ⟨.list [0], .list [0], []⟩
      [0] [0] rfl rfl (by decide) (by decide)).2.1 (by simp)

/-! ## Model contract: `ModelBase.__init_subclass__`
(`src/backend/api/base.py`, lines 46-64) -/

/-- A Python class object: its name and the names of its ancestors
(itself included). -/
structure PyClassRef where
  name : String
  ancestors : List String

/-- `issubclass(c, base)`. -/
def pyIssubclass (c : PyClassRef) (base : String) : Bool :=
  base ∈ c.ancestors

/-- A class attribute's value: a class object, or some value that is not a
type (`isinstance(v, type)` false). -/
inductive PyAttrValue where
  | classValue (c : PyClassRef)
  | nonClassValue

/-- An adapter subclass declaration as `__init_subclass__` sees it: the
effective `PredictRequest` / `PredictResponse` attributes (inherited ones
included); `none` models `hasattr(cls, ...)` returning false. -/
structure AdapterDecl where
  name : String
  predictRequestAttr : Option PyAttrValue
  predictResponseAttr : Option PyAttrValue

/-- One attribute's checks (lines 50-56 for the request, 58-64 for the
response): present, a type, and a subclass of the base shape. -/
def checkAdapterAttr (clsName attrName base : String) :
    Option PyAttrValue → Except String Unit
  | none => .error (clsName ++ " must define a " ++ attrName ++ " class attribute")
  | some .nonClassValue =>
    .error (clsName ++ "." ++ attrName ++ " must inherit from " ++ base)
  | some (.classValue c) =>
    if pyIssubclass c base then .ok ()
    else .error (clsName ++ "." ++ attrName ++ " must inherit from " ++ base)

/-- `ModelBase.__init_subclass__(cls)`: the request check, then the
response check; a raised `TypeError` is an error result. -/
def initSubclassCheck (cls : AdapterDecl) : Except String Unit :=
  match checkAdapterAttr cls.name "PredictRequest" "BasePredictRequest"
      cls.predictRequestAttr with
  | .error e => .error e
  | .ok _ =>
    checkAdapterAttr cls.name "PredictResponse" "BasePredictResponse"
      cls.predictResponseAttr

/-- An adapter class that exists: evidence that its declaration passed the
definition-time check.  The router's request handlers construct adapters
only from defined classes, so a failing declaration never serves a
request. -/
structure RegisteredAdapter where
  decl : AdapterDecl
  checked : initSubclassCheck decl = .ok ()

/-- Executing the `class` statement: Python runs `__init_subclass__` while
defining the subclass; on `TypeError` no class object is produced. -/
def defineAdapter (cls : AdapterDecl) : Except String RegisteredAdapter :=
  match h : initSubclassCheck cls with
  | .ok _ => .ok ⟨cls, h⟩
  | .error e => .error e

/-- Whether an attribute value is a type extending `base` — false when the
attribute is absent, not a type, or not a subclass. -/
def attrExtendsBase (base : String) : Option PyAttrValue → Bool
  | some (.classValue c) => pyIssubclass c base
  | _ => false

theorem checkAdapterAttr_ok_iff (clsName attrName base : String)
    (v : Option PyAttrValue) :
    checkAdapterAttr clsName attrName base v = .ok () ↔
      attrExtendsBase base v = true := by
  match v with
  | none => simp [checkAdapterAttr, attrExtendsBase]
  | some .nonClassValue => simp [checkAdapterAttr, attrExtendsBase]
  | some (.classValue c) =>
    by_cases hc : pyIssubclass c base = true
    · simp [checkAdapterAttr, attrExtendsBase, hc]
    · simp [checkAdapterAttr, attrExtendsBase, hc]

theorem initSubclassCheck_ok_iff (cls : AdapterDecl) :
    initSubclassCheck cls = .ok () ↔
      (attrExtendsBase "BasePredictRequest" cls.predictRequestAttr = true ∧
        attrExtendsBase "BasePredictResponse" cls.predictResponseAttr = true) := by
  rw [initSubclassCheck]
  cases hreq : checkAdapterAttr cls.name "PredictRequest" "BasePredictRequest"
      cls.predictRequestAttr with
  | ok u =>
    cases u
    have h1 := (checkAdapterAttr_ok_iff _ _ _ _).mp hreq
    rw [checkAdapterAttr_ok_iff]
    simp [h1]
  | error e =>
    have h1 : ¬ attrExtendsBase "BasePredictRequest" cls.predictRequestAttr = true := by
      intro hx
      have hy := (checkAdapterAttr_ok_iff cls.name "PredictRequest"
        "BasePredictRequest" _).mpr hx
      rw [hreq] at hy
      exact Except.noConfusion hy
    constructor
    · intro hx
      exact absurd hx (by simp)
    · rintro ⟨hx, -⟩
      exact absurd hx h1

theorem defineAdapter_error {cls : AdapterDecl} {e : String}
    (h : initSubclassCheck cls = .error e) : defineAdapter cls = .error e := by
  unfold defineAdapter
  split
  · next val heq =>
    rw [heq] at h
    exact absurd h (by simp)
  · next e2 heq =>
    rw [heq] at h
    injection h with h2
    rw [h2]

theorem defineAdapter_ok {cls : AdapterDecl}
    (h : initSubclassCheck cls = .ok ()) : ∃ r, defineAdapter cls = .ok r := by
  unfold defineAdapter
  split
  · next val heq =>
    exact ⟨_, rfl⟩
  · next e2 heq =>
    rw [heq] at h
    exact absurd h (by simp)

/-- C9: defining an adapter subclass that omits the concrete
`PredictRequest` or `PredictResponse`, or declares one that does not extend
the corresponding base shape, fails at class-definition (registration) time
with a `TypeError` — no adapter object exists, so no request is ever
handled by it; and a declaration passing both checks is registered. -/
theorem adapter_registration_claim (cls : AdapterDecl) :
    ((attrExtendsBase "BasePredictRequest" cls.predictRequestAttr = false ∨
      attrExtendsBase "BasePredictResponse" cls.predictResponseAttr = false) →
      ∃ e, defineAdapter cls = .error e) ∧
    (attrExtendsBase "BasePredictRequest" cls.predictRequestAttr = true →
      attrExtendsBase "BasePredictResponse" cls.predictResponseAttr = true →
      ∃ r, defineAdapter cls = .ok r) := by
  constructor
  · intro h
    have hnot : ¬ initSubclassCheck cls = .ok () := by
      rw [initSubclassCheck_ok_iff]
      rintro ⟨h1, h2⟩
      rcases h with h | h
      · rw [h1] at h
        exact absurd h (by simp)
      · rw [h2] at h
        exact absurd h (by simp)
    cases he : initSubclassCheck cls with
    | ok u =>
      cases u
      exact absurd he hnot
    | error e => exact ⟨e, defineAdapter_error he⟩
  · intro h1 h2
    exact defineAdapter_ok ((initSubclassCheck_ok_iff cls).mpr ⟨h1, h2⟩)

/-- `ModelHandNumbers`: both nested classes extend the base shapes
(`src/backend/api/handnumbers.py`, lines 19-29). -/
def modelHandNumbersDecl : AdapterDecl :=
  ⟨"ModelHandNumbers",
    some (.classValue ⟨"PredictRequest",
      ["PredictRequest", "BasePredictRequest", "BaseModel", "object"]⟩),
    some (.classValue ⟨"PredictResponse",
      ["PredictResponse", "BasePredictResponse", "BaseModel", "object"]⟩)⟩

theorem adapter_registration_claim_witness :
    (∃ e, defineAdapter ⟨"BadAdapter", none, none⟩ = .error e) ∧
      ∃ r, defineAdapter modelHandNumbersDecl = .ok r :=
  ⟨(adapter_registration_claim ⟨"BadAdapter", none, none⟩).1 (Or.inl rfl),
    (adapter_registration_claim modelHandNumbersDecl).2 (by decide) (by decide)⟩
